import Mathlib

/-!
Verification development for the soter-grype / soter-anchore scanner adapters.

The two adapter modules (`soter/anchore.py`, `soter/grype.py`) are shallowly
embedded here.  JSON values are modelled by an inductive `Json`; Python
exceptions (KeyError, TypeError, ...) are modelled by an error type `PyErr`
threaded through the `Except` monad, so a Python expression that may raise
becomes a Lean computation in `Except PyErr`.  External effects (HTTP
responses, subprocess results) become explicit inputs to the embedded
functions.  Machine-level detail that no property here depends on (exact
Python repr of composite values inside an f-string, pydantic's lenient
coercions) is fixed at a documented boundary in the helper functions below.
-/

/-- A JSON value, as produced by `response.json()` / `json.loads`. -/
inductive Json where
  | null : Json
  | bool (b : Bool) : Json
  | num (n : Int) : Json
  | str (s : String) : Json
  | arr (elems : List Json) : Json
  | obj (fields : List (String × Json)) : Json

/-- Python exceptions that the embedded code can raise.  `grypeError` embeds
the repository's `GrypeError(JsonRpcException)` carrying the captured stderr. -/
inductive PyErr where
  | keyError (k : String) : PyErr
  | typeError : PyErr
  | indexError : PyErr
  | stopIteration : PyErr
  | valueError : PyErr
  | validationError : PyErr
  | httpError (code : Nat) : PyErr
  | grypeError (stderr : String) : PyErr
deriving DecidableEq

/-- Python `container[key]` for a string key: dict lookup (KeyError when the
key is absent), TypeError on a non-dict. -/
def getKey (j : Json) (k : String) : Except PyErr Json :=
  match j with
  | .obj fields =>
    match fields.find? (fun p => p.1 = k) with
    | some p => .ok p.2
    | none => .error (.keyError k)
  | _ => .error .typeError

/-- Python `container[i]` for an integer index on the JSON universe:
list indexing (IndexError when out of range), TypeError otherwise. -/
def getIdx (j : Json) (i : Nat) : Except PyErr Json :=
  match j with
  | .arr elems =>
    match elems.get? i with
    | some x => .ok x
    | none => .error .indexError
  | _ => .error .typeError

/-- Python `dict.get(key, default)`: the value when present, the default when
absent; a non-dict receiver raises (AttributeError, modelled as TypeError). -/
def pyDictGet (j : Json) (k : String) (dflt : Json) : Except PyErr Json :=
  match j with
  | .obj fields =>
    match fields.find? (fun p => p.1 = k) with
    | some p => .ok p.2
    | none => .ok dflt
  | _ => .error .typeError

/-- Validation boundary: the value must be a JSON string.  Used where the
code hands a value to a string-typed field of the pydantic model, or calls a
`str` method on it. -/
def asStr (j : Json) : Except PyErr String :=
  match j with
  | .str s => .ok s
  | _ => .error .validationError

/-- Validation boundary: the value must be a JSON boolean. -/
def asBool (j : Json) : Except PyErr Bool :=
  match j with
  | .bool b => .ok b
  | _ => .error .validationError

/-- Python iteration over a value: only lists are iterable in the fragment
the adapters consume; anything else raises TypeError. -/
def asArr (j : Json) : Except PyErr (List Json) :=
  match j with
  | .arr elems => .ok elems
  | _ => .error .typeError

/-- Python truthiness of a JSON value (`if result:` and friends). -/
def pyTruthy : Json → Bool
  | .null => false
  | .bool b => b
  | .num n => n != 0
  | .str s => s ≠ ""
  | .arr elems => !elems.isEmpty
  | .obj fields => !fields.isEmpty

/-- Python `x == "lit"` where `lit` is a string literal: true exactly for the
equal JSON string, false (never an error) for every other value. -/
def jsonEqStr (j : Json) (s : String) : Bool :=
  match j with
  | .str t => t = s
  | _ => false

/-- Python `str(x)` as it appears inside an f-string.  Scalars follow
Python's rendering; the rendering of composite values is fixed by a
placeholder, since no adapter property depends on it. -/
def pyStr : Json → String
  | .null => "None"
  | .bool true => "True"
  | .bool false => "False"
  | .num n => toString n
  | .str s => s
  | .arr _ => "<list>"
  | .obj _ => "<dict>"

/-- Python `"needle" in container` for a string literal needle: key
membership on a dict, element membership on a list, substring test on a
string, TypeError otherwise. -/
def pyContainsStr (container : Json) (needle : String) : Except PyErr Bool :=
  match container with
  | .obj fields => .ok (fields.any (fun p => p.1 = needle))
  | .arr elems => .ok (elems.any (fun x => jsonEqStr x needle))
  | .str s => .ok (decide ((s.splitOn needle).length > 1))
  | _ => .error .typeError

/-- Python `str.upper()` restricted to the ASCII range the adapters consume. -/
def pyUpper (s : String) : String := ⟨s.data.map Char.toUpper⟩

/-- Python `str.strip()`. -/
def pyStrip (s : String) : String := s.trim

/-- Insert one binding into a Python dict under construction: an existing key
is overwritten in place, a new key is appended (insertion order preserved). -/
def dictUpd (d : List (String × String)) (kv : String × String) :
    List (String × String) :=
  if d.any (fun p => p.1 = kv.1) then
    d.map (fun p => if p.1 = kv.1 then kv else p)
  else d ++ [kv]

/-- Python `dict(pairs)` / a dict comprehension over a pair sequence:
last value wins, first-insertion order kept. -/
def dictOf (pairs : List (String × String)) : List (String × String) :=
  pairs.foldl dictUpd []

/-- Lookup in a built dict, raising KeyError when absent
(`db_status["Status"]` and friends). -/
def dictLookup (d : List (String × String)) (k : String) :
    Except PyErr String :=
  match d.find? (fun p => p.1 = k) with
  | some p => .ok p.2
  | none => .error (.keyError k)

/-- An HTTP response: status code plus parsed JSON body. -/
structure HttpResponse where
  status : Nat
  body : Json

/-- `response.raise_for_status()`: a non-2xx status code is raised as an
HTTP error. -/
def raiseForStatus (r : HttpResponse) : Except PyErr Unit :=
  if 200 ≤ r.status ∧ r.status ≤ 299 then .ok () else .error (.httpError r.status)

/-! ## The unified scanner model

The model classes (`ScannerStatus`, `Severity`, `PackageType`,
`ImageVulnerability`) live in the external `soter-scanner-model` package
(an `install_requires` dependency, not part of this repository's sources),
so their shapes are modelled from the specification's data-model section. -/

/-- Modelled from the spec: the `ScannerStatus` value object of the external
scanner-model package — kind, vendor, version, availability flag, message and
an optional string-to-string property mapping. -/
structure ScannerStatus where
  kind : String
  vendor : String
  version : String
  available : Bool
  message : String
  properties : Option (List (String × String)) := none
deriving DecidableEq

/-- Modelled from the spec: the closed `Severity` enumeration of the external
scanner-model package, with the fixed ordered member set named there. -/
inductive Severity where
  | UNKNOWN | NEGLIGIBLE | LOW | MEDIUM | HIGH | CRITICAL
deriving DecidableEq

/-- The declared name of a `Severity` member, as used for `Severity[name]`
lookup. -/
def severityName : Severity → String
  | .UNKNOWN => "UNKNOWN"
  | .NEGLIGIBLE => "NEGLIGIBLE"
  | .LOW => "LOW"
  | .MEDIUM => "MEDIUM"
  | .HIGH => "HIGH"
  | .CRITICAL => "CRITICAL"

/-- Modelled from the spec: Python `Severity[name]` — lookup of an
enumeration member by its declared name, KeyError on anything else. -/
def severityLookup (s : String) : Except PyErr Severity :=
  if s = "UNKNOWN" then .ok .UNKNOWN
  else if s = "NEGLIGIBLE" then .ok .NEGLIGIBLE
  else if s = "LOW" then .ok .LOW
  else if s = "MEDIUM" then .ok .MEDIUM
  else if s = "HIGH" then .ok .HIGH
  else if s = "CRITICAL" then .ok .CRITICAL
  else .error (.keyError s)

/-- `Severity[raw.upper()]` — the severity-normalization expression both
adapters use on the backend's free-text severity string. -/
def severityNormalize (raw : String) : Except PyErr Severity :=
  severityLookup (pyUpper raw)

/-- Modelled from the spec: the closed `PackageType` enumeration. -/
inductive PackageType where
  | OS | NON_OS
deriving DecidableEq

/-- Modelled from the spec: the `ImageVulnerability` value object — one
normalized finding. -/
structure ImageVulnerability where
  title : String
  severity : Severity
  info_url : Option String
  package_name : String
  package_version : String
  package_type : PackageType
  package_location : Option String
  fix_version : Option String
deriving DecidableEq

/-! ## Engine adapter (`soter/anchore.py`) -/

namespace Anchore

/-- The backend interactions `status()` performs: the `GET /system` and
`GET /system/feeds` calls, each either a transport-level failure (raised by
the HTTP client) or a response. -/
structure StatusBackend where
  system : Except PyErr HttpResponse
  feeds : Except PyErr HttpResponse

/-- `next(state for state in service_states if state["servicename"] == "analyzer")`:
first match wins, KeyError from an earlier state propagates, StopIteration
when no state matches. -/
def findAnalyzer : List Json → Except PyErr Json
  | [] => .error .stopIteration
  | st :: rest => do
    let name ← getKey st "servicename"
    if jsonEqStr name "analyzer" then pure st else findAnalyzer rest

/-- Inner clause of the properties comprehension: one pair per group flagged
enabled, keyed by the group's own name suffixed with `/last-sync`. -/
def groupProps : List Json → Except PyErr (List (String × String))
  | [] => .ok []
  | g :: rest => do
    let en ← getKey g "enabled"
    if pyTruthy en then do
      let name ← getKey g "name"
      let sync ← getKey g "last_sync"
      let restProps ← groupProps rest
      pure ((pyStr name ++ "/last-sync", pyStr sync) :: restProps)
    else groupProps rest

/-- Outer clause of the properties comprehension: groups of feeds flagged
enabled, in feed order. -/
def feedProps : List Json → Except PyErr (List (String × String))
  | [] => .ok []
  | feed :: rest => do
    let en ← getKey feed "enabled"
    if pyTruthy en then do
      let groups ← getKey feed "groups" >>= asArr
      let gp ← groupProps groups
      let rp ← feedProps rest
      pure (gp ++ rp)
    else feedProps rest

/-- The body of the `try:` block in `status()`: everything that can raise.
Returns the version, availability, message and optional properties that the
`ScannerStatus` is built from. -/
def statusTry (b : StatusBackend) :
    Except PyErr (String × Bool × String × Option (List (String × String))) := do
  let system ← b.system
  let feeds ← b.feeds
  let _ ← raiseForStatus system
  let _ ← raiseForStatus feeds
  let states ← getKey system.body "service_states" >>= asArr
  let analyzer ← findAnalyzer states
  let detail ← getKey analyzer "service_detail"
  let version ← getKey detail "version" >>= asStr
  let available ← getKey analyzer "status" >>= asBool
  let message ← getKey analyzer "status_message" >>= asStr
  if available then do
    let feedList ← asArr feeds.body
    let props ← feedProps feedList
    pure (version, available, message, some (dictOf props))
  else
    pure (version, available, message, none)

/-- `status()`: the bare `except:` converts any failure of the try-body into
the fixed degraded `ScannerStatus`. -/
def status (b : StatusBackend) : ScannerStatus :=
  match statusTry b with
  | .ok (version, available, message, props) =>
    { kind := "Anchore Engine", vendor := "Anchore", version := version,
      available := available, message := message, properties := props }
  | .error _ =>
    { kind := "Anchore Engine", vendor := "Anchore", version := "unknown",
      available := false, message := "could not detect status",
      properties := none }

/-- `response.json()[0]["analysis_status"]` — the status field the poll loop
inspects on the current response. -/
def extractAnalysisStatus (body : Json) : Except PyErr Json := do
  let first ← getIdx body 0
  getKey first "analysis_status"

/-- The `while True:` poll loop of `scan_image`, step-indexed by fuel.
`fetch k` is the response to the k-th `GET /images/{digest}` poll; `polls`
counts polls already performed.  `none` means the loop is still running
after `fuel` iterations; `some (ok n)` means it left the loop having
performed exactly `n` polls; `some (error e)` means it raised. -/
def pollLoop (fetch : Nat → HttpResponse) :
    HttpResponse → Nat → Nat → Option (Except PyErr Nat)
  | _, _, 0 => none
  | resp, polls, fuel + 1 =>
    match extractAnalysisStatus resp.body with
    | .error e => some (.error e)
    | .ok s =>
      if jsonEqStr s "analyzed" then some (.ok polls)
      else
        match raiseForStatus (fetch polls) with
        | .error e => some (.error e)
        | .ok _ => pollLoop fetch (fetch polls) (polls + 1) fuel

/-- The completion protocol of `scan_image`: check the submission response,
then poll until the analysis status becomes `analyzed`. -/
def awaitAnalyzed (submission : HttpResponse) (fetch : Nat → HttpResponse)
    (fuel : Nat) : Option (Except PyErr Nat) :=
  match raiseForStatus submission with
  | .error e => some (.error e)
  | .ok _ => pollLoop fetch submission 0 fuel

/-- Normalization of one entry of the `/vuln/all` report into an
`ImageVulnerability`, in the field order of the source comprehension. -/
def normalizeVuln (vuln : Json) : Except PyErr ImageVulnerability := do
  let title ← getKey vuln "vuln" >>= asStr
  let sevRaw ← getKey vuln "severity" >>= asStr
  let severity ← severityNormalize sevRaw
  let urlJ ← getKey vuln "url"
  let info_url ← match urlJ with
    | .null => pure (none : Option String)
    | v => do
      let s ← asStr v
      pure (some s)
  let package_name ← getKey vuln "package_name" >>= asStr
  let package_version ← getKey vuln "package_version" >>= asStr
  let ppath ← getKey vuln "package_path"
  let package_type :=
    if jsonEqStr ppath "pkgdb" then PackageType.OS else PackageType.NON_OS
  let package_location ←
    if jsonEqStr ppath "pkgdb" then pure (none : Option String)
    else do
      let s ← asStr ppath
      pure (some s)
  let fixJ ← getKey vuln "fix"
  let fix_version ← match fixJ with
    | .str s => pure (if s = "None" then (none : Option String) else some s)
    | .null => pure (none : Option String)
    | _ => .error .validationError
  pure { title := title, severity := severity, info_url := info_url,
         package_name := package_name, package_version := package_version,
         package_type := package_type, package_location := package_location,
         fix_version := fix_version }

/-- The final step of `scan_image`: normalize every entry of the
vulnerability report body. -/
def scanVulns (body : Json) : Except PyErr (List ImageVulnerability) := do
  let vulns ← getKey body "vulnerabilities" >>= asArr
  vulns.mapM normalizeVuln

end Anchore

/-! ## CLI adapter (`soter/grype.py`) -/

/-- The stdout of a subprocess as consumed by `json.loads`: either text that
parses to a JSON value, or text that does not. -/
inductive JsonSource where
  | parsed (j : Json) : JsonSource
  | invalid : JsonSource

/-- `json.loads(stdout_data)`: a JSON decode error is a ValueError. -/
def jsonLoads : JsonSource → Except PyErr Json
  | .parsed j => .ok j
  | .invalid => .error .valueError

/-- A completed subprocess whose stdout is consumed as JSON. -/
structure Proc where
  returncode : Int
  stdout : JsonSource
  stderr : String

/-- A completed subprocess whose stdout is consumed as decoded text lines
(`stdout_data.decode().splitlines()`). -/
structure TextProc where
  returncode : Int
  lines : List String
  stderr : String

namespace Grype

/-- `line.split(":", maxsplit=1)` fed to `dict(...)`: a line without a colon
yields a 1-element sequence, which `dict` rejects with a ValueError. -/
def parseDbLine (line : String) : Except PyErr (String × String) :=
  match line.splitOn ":" with
  | [] => .error .valueError
  | [_] => .error .valueError
  | k :: rest => .ok (k, String.intercalate ":" rest)

/-- Parse every db-status output line into a key/value pair. -/
def parseDbLines (lines : List String) : Except PyErr (List (String × String)) :=
  lines.mapM parseDbLine

/-- The backend interactions `status()` performs: the
`grype version --output json` subprocess and the `grype db status --quiet`
subprocess. -/
structure StatusBackend where
  versionProc : Proc
  dbProc : TextProc

/-- `status()`.  Unlike the engine adapter there is no catch-all: only the
two non-zero-exit checks guard failures, so a zero-exit subprocess with
unparsable or incomplete output raises out of the function (an `error`
result here). -/
def status (b : StatusBackend) : Except PyErr ScannerStatus := do
  if b.versionProc.returncode ≠ 0 then
    pure { kind := "Grype", vendor := "Anchore", version := "unknown",
           available := false, message := "could not detect status",
           properties := none }
  else do
    let vj ← jsonLoads b.versionProc.stdout
    let version ← getKey vj "version" >>= asStr
    if b.dbProc.returncode ≠ 0 then
      pure { kind := "Grype", vendor := "Anchore", version := version,
             available := false, message := "could not detect database status",
             properties := none }
    else do
      let pairs ← parseDbLines b.dbProc.lines
      let dbStatus := dictOf pairs
      let st ← dictLookup dbStatus "Status"
      let ver ← dictLookup dbStatus "Require DB Version"
      let built ← dictLookup dbStatus "Built"
      pure { kind := "Grype", vendor := "Anchore", version := version,
             available := true, message := "available",
             properties := some [
               ("vulnerabilitydb/status", pyStrip st),
               ("vulnerabilitydb/version", pyStrip ver),
               ("vulnerabilitydb/built", pyStrip built)] }

/-- Normalization of one entry of the `matches` list into an
`ImageVulnerability`, in the field order of the source comprehension. -/
def normalizeMatch (m : Json) : Except PyErr ImageVulnerability := do
  let vulnJ ← getKey m "vulnerability"
  let title ← getKey vulnJ "id" >>= asStr
  let sevRaw ← getKey vulnJ "severity" >>= asStr
  let severity ← severityNormalize sevRaw
  let linksJ ← pyDictGet vulnJ "links" (Json.arr [])
  let links ← asArr linksJ
  let info_url ← match links with
    | [] => pure (none : Option String)
    | l :: _ => do
      let s ← asStr l
      pure (some s)
  let artifact ← getKey m "artifact"
  let package_name ← getKey artifact "name" >>= asStr
  let package_version ← getKey artifact "version" >>= asStr
  let matchDetails ← getKey m "matchDetails"
  let searchKey ← getKey matchDetails "searchKey"
  let isOs ← pyContainsStr searchKey "distro"
  let package_type := if isOs then PackageType.OS else PackageType.NON_OS
  let package_location ←
    if isOs then pure (none : Option String)
    else do
      let locs ← getKey artifact "locations" >>= asArr
      let firstLoc ← match locs with
        | [] => Except.error PyErr.stopIteration
        | l :: _ => pure l
      let p ← getKey firstLoc "path" >>= asStr
      pure (some p)
  let fixJ ← pyDictGet vulnJ "fixedInVersion" Json.null
  let fix_version ← match fixJ with
    | .null => pure (none : Option String)
    | v => do
      let s ← asStr v
      pure (some s)
  pure { title := title, severity := severity, info_url := info_url,
         package_name := package_name, package_version := package_version,
         package_type := package_type, package_location := package_location,
         fix_version := fix_version }

/-- `scan_image` from the completed scan subprocess on: a non-zero exit
raises `GrypeError(stderr_data)`; otherwise the stdout JSON is parsed and
each match normalized; a falsy result or an absent `matches` key yields the
empty list. -/
def scan_image (proc : Proc) : Except PyErr (List ImageVulnerability) := do
  if proc.returncode ≠ 0 then
    Except.error (PyErr.grypeError proc.stderr)
  else do
    let result ← jsonLoads proc.stdout
    if pyTruthy result then do
      let matchesJ ← pyDictGet result "matches" (Json.arr [])
      let matchList ← asArr matchesJ
      matchList.mapM normalizeMatch
    else
      pure []

end Grype

/-! ## Concurrency gate of the CLI adapter

`create_semaphore` installs one process-wide `asyncio.Semaphore` sized by
`GRYPE_CONCURRENT_SCANS` (default 1) before any request is served.  Each
`scan_image` request executes `async with app.scan_semaphore:` around the
subprocess: the slot is acquired before `create_subprocess_shell` and
released by the `async with` exit after `proc.communicate()`, whatever the
exit code.  The interleaving of requests on the single event loop is
embedded as a labelled transition system: one phase per request, with the
semaphore count as the only shared state. -/

namespace Grype

/-- The phase of one in-flight `scan_image` request with respect to the
gate.  `running rc` records that the scan subprocess has been spawned and
will exit with code `rc`; `done rc` that it has completed (with that same
code, successful or not) and the slot has been released. -/
inductive TaskPhase where
  | waiting : TaskPhase
  | running (rc : Int) : TaskPhase
  | done (rc : Int) : TaskPhase
deriving DecidableEq

/-- Whether a request currently has a live scan subprocess. -/
def TaskPhase.isRunning : TaskPhase → Bool
  | .running _ => true
  | _ => false

/-- The shared state: the semaphore's free-slot count and the phase of each
request. -/
structure GateState where
  sem : Nat
  tasks : List TaskPhase
deriving DecidableEq

/-- Number of scan subprocesses alive in a state. -/
def runningCount (s : GateState) : Nat := s.tasks.countP TaskPhase.isRunning

/-- One scheduler step.  `acquire`: a waiting request takes a free slot and
spawns its subprocess — only enabled when a slot is free, so a gate-starved
request has no step and waits.  `release`: a completed subprocess gives its
slot back unconditionally, whatever its exit code. -/
inductive GateStep : GateState → GateState → Prop where
  | acquire (s : GateState) (i : Nat) (rc : Int)
      (hi : s.tasks.get? i = some .waiting) (hs : 0 < s.sem) :
      GateStep s ⟨s.sem - 1, s.tasks.set i (.running rc)⟩
  | release (s : GateState) (i : Nat) (rc : Int)
      (hi : s.tasks.get? i = some (.running rc)) :
      GateStep s ⟨s.sem + 1, s.tasks.set i (.done rc)⟩

/-- `create_semaphore`: the initial state for a capacity-`cap` semaphore
(`asyncio.Semaphore(GRYPE_CONCURRENT_SCANS)`) and `k` pending requests. -/
def create_semaphore (cap k : Nat) : GateState :=
  ⟨cap, List.replicate k .waiting⟩

/-- States reachable from service startup under any interleaving. -/
inductive GateReach (cap k : Nat) : GateState → Prop where
  | init : GateReach cap k (create_semaphore cap k)
  | step {s s' : GateState} : GateReach cap k s → GateStep s s' →
      GateReach cap k s'

end Grype

/-! ## Structured backend inputs used by the theorems -/

namespace Anchore

/-- A 2xx `GET /system` response reporting exactly one service state, the
analyzer's, with the given version, availability and message. -/
def mkSystemResponse (version : String) (avail : Bool) (msg : String) :
    HttpResponse :=
  ⟨200, Json.obj [("service_states", Json.arr [Json.obj [
    ("servicename", Json.str "analyzer"),
    ("service_detail", Json.obj [("version", Json.str version)]),
    ("status", Json.bool avail),
    ("status_message", Json.str msg)]])]⟩

/-- A 2xx `GET /system/feeds` response carrying the given feed list. -/
def mkFeedsResponse (feeds : List Json) : HttpResponse := ⟨200, Json.arr feeds⟩

/-- Abstract description of one feed group as the feeds endpoint reports it. -/
structure GroupSpec where
  enabled : Bool
  name : String
  lastSync : String
deriving DecidableEq

/-- Abstract description of one feed. -/
structure FeedSpec where
  enabled : Bool
  name : String
  groups : List GroupSpec
deriving DecidableEq

/-- The JSON object for one group. -/
def mkGroup (g : GroupSpec) : Json :=
  Json.obj [("enabled", Json.bool g.enabled), ("name", Json.str g.name),
            ("last_sync", Json.str g.lastSync)]

/-- The JSON object for one feed. -/
def mkFeed (f : FeedSpec) : Json :=
  Json.obj [("name", Json.str f.name), ("enabled", Json.bool f.enabled),
            ("groups", Json.arr (f.groups.map mkGroup))]

/-- Written from the spec's words, for comparison with the code: one
property per group flagged enabled inside a feed flagged enabled, keyed by
the group's own name (the amended reading; the spec text says the feed's
name) suffixed with `/last-sync`, valued by the group's last-sync stamp. -/
def specProperties (feeds : List FeedSpec) : List (String × String) :=
  (feeds.filter (fun f => f.enabled)).flatMap fun f =>
    (f.groups.filter (fun g => g.enabled)).map fun g =>
      (g.name ++ "/last-sync", g.lastSync)

/-- A poll-protocol response: 2xx or 500 according to the flag, with a
well-formed single-image body carrying the given analysis status. -/
def mkResp (pr : Bool × String) : HttpResponse :=
  ⟨if pr.1 then 200 else 500,
   Json.arr [Json.obj [("analysis_status", Json.str pr.2)]]⟩

/-- A well-formed entry of the `/vuln/all` report. -/
def mkEngineVuln (title sev url pname pver ppath fix : String) : Json :=
  Json.obj [("vuln", Json.str title), ("severity", Json.str sev),
            ("url", Json.str url), ("package_name", Json.str pname),
            ("package_version", Json.str pver),
            ("package_path", Json.str ppath), ("fix", Json.str fix)]

end Anchore

namespace Grype

/-- A well-formed entry of the grype `matches` list.  `fixv = none` leaves
the `fixedInVersion` field out entirely (structural absence). -/
def mkMatch (id sev : String) (urls : List String) (pname pver : String)
    (skFields : List (String × Json)) (locations : List Json)
    (fixv : Option String) : Json :=
  Json.obj [
    ("vulnerability", Json.obj
      ([("id", Json.str id), ("severity", Json.str sev),
        ("links", Json.arr (urls.map Json.str))] ++
       (match fixv with
        | some f => [("fixedInVersion", Json.str f)]
        | none => []))),
    ("artifact", Json.obj [("name", Json.str pname),
      ("version", Json.str pver), ("locations", Json.arr locations)]),
    ("matchDetails", Json.obj [("searchKey", Json.obj skFields)])]

/-- An artifact location entry with the given path. -/
def mkLocation (p : String) : Json := Json.obj [("path", Json.str p)]

end Grype

/-! ## Evaluation lemmas -/

namespace Anchore

theorem groupProps_mkGroup (gs : List GroupSpec) :
    groupProps (gs.map mkGroup) =
      .ok ((gs.filter (fun g => g.enabled)).map fun g =>
        (g.name ++ "/last-sync", g.lastSync)) := by
  induction gs with
  | nil => rfl
  | cons g rest ih =>
    cases hg : g.enabled <;>
      simp [groupProps, mkGroup, getKey, pyTruthy, pyStr, hg, ih,
        List.filter_cons, List.find?, Bind.bind, Except.bind,
        Pure.pure, Except.pure]

end Anchore

namespace Anchore

theorem feedProps_mkFeed (fs : List FeedSpec) :
    feedProps (fs.map mkFeed) = .ok (specProperties fs) := by
  induction fs with
  | nil => rfl
  | cons f rest ih =>
    cases hf : f.enabled <;>
      simp [feedProps, mkFeed, getKey, asArr, pyTruthy, hf, ih, specProperties,
        List.filter_cons, List.flatMap_cons, List.find?, Bind.bind, Except.bind,
        Pure.pure, Except.pure, groupProps_mkGroup]

theorem status_mk_available (v msg : String) (fs : List FeedSpec) :
    status ⟨.ok (mkSystemResponse v true msg),
            .ok (mkFeedsResponse (fs.map mkFeed))⟩ =
      ⟨"Anchore Engine", "Anchore", v, true, msg,
       some (dictOf (specProperties fs))⟩ := by
  simp [status, statusTry, mkSystemResponse, mkFeedsResponse, getKey, asArr,
    asStr, asBool, findAnalyzer, jsonEqStr, raiseForStatus, feedProps_mkFeed,
    List.find?, Bind.bind, Except.bind, Pure.pure, Except.pure]

theorem status_mk_unavailable (v msg : String) (fbody : Json) :
    status ⟨.ok (mkSystemResponse v false msg), .ok ⟨200, fbody⟩⟩ =
      ⟨"Anchore Engine", "Anchore", v, false, msg, none⟩ := by
  simp [status, statusTry, mkSystemResponse, getKey, asArr, asStr, asBool,
    findAnalyzer, jsonEqStr, raiseForStatus, List.find?,
    Bind.bind, Except.bind, Pure.pure, Except.pure]

end Anchore

namespace Grype

theorem countP_set_eq {α : Type} (p : α → Bool) :
    ∀ (l : List α) (i : Nat) (a b : α), l.get? i = some a →
      (l.set i b).countP p + (if p a then 1 else 0) =
        l.countP p + (if p b then 1 else 0) := by
  intro l
  induction l with
  | nil => intro i a b h; simp at h
  | cons x xs ih =>
    intro i a b h
    cases i with
    | zero =>
      simp at h
      subst h
      cases hpx : p x <;> cases hpb : p b <;>
        simp [List.countP_cons, hpx, hpb]
    | succ n =>
      have hx := ih n a b h
      cases hpx : p x <;>
        simp [List.countP_cons, hpx] <;> omega

theorem gateInvariant {cap k : Nat} {s : GateState} (h : GateReach cap k s) :
    s.sem + runningCount s = cap := by
  induction h with
  | init =>
    have hz : runningCount (create_semaphore cap k) = 0 := by
      simp only [runningCount, create_semaphore]
      rw [List.countP_eq_zero]
      intro a ha
      rw [List.eq_of_mem_replicate ha]
      simp [TaskPhase.isRunning]
    simp only [create_semaphore] at hz ⊢
    omega
  | @step s s' hr hstep ih =>
    cases hstep with
    | acquire i rc hi hs =>
      have hcp := countP_set_eq TaskPhase.isRunning s.tasks i _ (.running rc) hi
      simp [TaskPhase.isRunning] at hcp
      simp only [runningCount] at ih ⊢
      omega
    | release i rc hi =>
      have hcp := countP_set_eq TaskPhase.isRunning s.tasks i _ (.done rc) hi
      simp [TaskPhase.isRunning] at hcp
      simp only [runningCount] at ih ⊢
      omega

end Grype

namespace Anchore

theorem extract_mkResp (pr : Bool × String) :
    extractAnalysisStatus (mkResp pr).body = .ok (Json.str pr.2) := rfl

theorem raiseForStatus_mkResp (pr : Bool × String) :
    raiseForStatus (mkResp pr) =
      if pr.1 then .ok () else .error (.httpError 500) := by
  obtain ⟨b, s⟩ := pr
  cases b <;> simp [raiseForStatus, mkResp]

theorem pollLoop_counts (σ : Nat → String) :
    ∀ (fuel p n : Nat), p ≤ n → n - p < fuel →
      (∀ i, p ≤ i → i < n → σ i ≠ "analyzed") → σ n = "analyzed" →
      pollLoop (fun k => mkResp (true, σ (k + 1))) (mkResp (true, σ p)) p fuel =
        some (.ok n) := by
  intro fuel
  induction fuel with
  | zero => intro p n hpn hfuel _ _; omega
  | succ fuel ih =>
    intro p n hpn hfuel hbefore hn
    by_cases hp : p = n
    · subst hp
      simp [pollLoop, extract_mkResp, jsonEqStr, hn]
    · have hne : σ p ≠ "analyzed" := hbefore p le_rfl (by omega)
      have hstep :
          pollLoop (fun k => mkResp (true, σ (k + 1))) (mkResp (true, σ p)) p
              (fuel + 1) =
            pollLoop (fun k => mkResp (true, σ (k + 1)))
              (mkResp (true, σ (p + 1))) (p + 1) fuel := by
        simp [pollLoop, extract_mkResp, jsonEqStr, hne, raiseForStatus_mkResp]
      rw [hstep]
      exact ih (p + 1) n (by omega) (by omega)
        (fun i h1 h2 => hbefore i (by omega) h2) hn

theorem pollLoop_none (ρ : Nat → Bool × String)
    (h : ∀ i, (ρ i).1 = true ∧ (ρ i).2 ≠ "analyzed") :
    ∀ (fuel p : Nat),
      pollLoop (fun k => mkResp (ρ (k + 1))) (mkResp (ρ p)) p fuel = none := by
  intro fuel
  induction fuel with
  | zero => intro p; rfl
  | succ fuel ih =>
    intro p
    have hstep :
        pollLoop (fun k => mkResp (ρ (k + 1))) (mkResp (ρ p)) p (fuel + 1) =
          pollLoop (fun k => mkResp (ρ (k + 1))) (mkResp (ρ (p + 1))) (p + 1)
            fuel := by
      simp [pollLoop, extract_mkResp, jsonEqStr, (h p).2, raiseForStatus_mkResp,
        (h (p + 1)).1]
    rw [hstep]
    exact ih (p + 1)

theorem pollLoop_some (ρ : Nat → Bool × String) :
    ∀ (fuel p : Nat) (r : Except PyErr Nat),
      pollLoop (fun k => mkResp (ρ (k + 1))) (mkResp (ρ p)) p fuel = some r →
      ∃ i, (ρ i).2 = "analyzed" ∨ (ρ i).1 = false := by
  intro fuel
  induction fuel with
  | zero => intro p r h; simp [pollLoop] at h
  | succ fuel ih =>
    intro p r h
    by_cases ha : (ρ p).2 = "analyzed"
    · exact ⟨p, Or.inl ha⟩
    · by_cases hb : (ρ (p + 1)).1 = true
      · have hstep :
            pollLoop (fun k => mkResp (ρ (k + 1))) (mkResp (ρ p)) p (fuel + 1) =
              pollLoop (fun k => mkResp (ρ (k + 1))) (mkResp (ρ (p + 1)))
                (p + 1) fuel := by
          simp [pollLoop, extract_mkResp, jsonEqStr, ha, raiseForStatus_mkResp,
            hb]
        rw [hstep] at h
        exact ih (p + 1) r h
      · exact ⟨p + 1, Or.inr (by simpa using hb)⟩

end Anchore


theorem severityNormalize_miss (raw : String)
    (h : ∀ sv : Severity, pyUpper raw ≠ severityName sv) :
    severityNormalize raw = .error (.keyError (pyUpper raw)) := by
  have h1 : pyUpper raw ≠ "UNKNOWN" := by simpa [severityName] using h .UNKNOWN
  have h2 : pyUpper raw ≠ "NEGLIGIBLE" := by
    simpa [severityName] using h .NEGLIGIBLE
  have h3 : pyUpper raw ≠ "LOW" := by simpa [severityName] using h .LOW
  have h4 : pyUpper raw ≠ "MEDIUM" := by simpa [severityName] using h .MEDIUM
  have h5 : pyUpper raw ≠ "HIGH" := by simpa [severityName] using h .HIGH
  have h6 : pyUpper raw ≠ "CRITICAL" := by simpa [severityName] using h .CRITICAL
  simp [severityNormalize, severityLookup, h1, h2, h3, h4, h5, h6]

namespace Anchore

theorem normalizeVuln_mk (title sev url pname pver ppath fix : String)
    (sv : Severity) (hsev : severityNormalize sev = .ok sv) :
    normalizeVuln (mkEngineVuln title sev url pname pver ppath fix) =
      .ok ⟨title, sv, some url, pname, pver,
        (if ppath = "pkgdb" then .OS else .NON_OS),
        (if ppath = "pkgdb" then none else some ppath),
        (if fix = "None" then none else some fix)⟩ := by
  by_cases hp : ppath = "pkgdb" <;> by_cases hf : fix = "None" <;>
    simp [normalizeVuln, mkEngineVuln, getKey, asStr, jsonEqStr, hsev, hp, hf,
      List.find?, Bind.bind, Except.bind, Pure.pure, Except.pure]

theorem normalizeVuln_mk_badSeverity (title sev url pname pver ppath fix :
    String) (e : PyErr) (hsev : severityNormalize sev = .error e) :
    normalizeVuln (mkEngineVuln title sev url pname pver ppath fix) =
      .error e := by
  simp [normalizeVuln, mkEngineVuln, getKey, asStr, hsev,
    List.find?, Bind.bind, Except.bind, Pure.pure, Except.pure]

end Anchore

namespace Grype

theorem normalizeMatch_mk (id sev : String) (urls : List String)
    (pname pver : String) (skFields : List (String × Json)) (p : String)
    (locs : List Json) (fixv : Option String) (sv : Severity)
    (hsev : severityNormalize sev = .ok sv) :
    normalizeMatch
        (mkMatch id sev urls pname pver skFields (mkLocation p :: locs) fixv) =
      .ok ⟨id, sv, urls.head?, pname, pver,
        (if skFields.any (fun q => q.1 = "distro") then .OS else .NON_OS),
        (if skFields.any (fun q => q.1 = "distro") then none else some p),
        fixv⟩ := by
  cases fixv <;> cases urls <;>
    by_cases hd : skFields.any (fun q => q.1 = "distro") <;>
      simp [normalizeMatch, mkMatch, mkLocation, getKey, pyDictGet, asStr,
        asArr, pyContainsStr, hsev, hd, List.find?, Bind.bind, Except.bind,
        Pure.pure, Except.pure]

theorem normalizeMatch_mk_noLocations (id sev : String) (urls : List String)
    (pname pver : String) (skFields : List (String × Json))
    (fixv : Option String) (sv : Severity)
    (hsev : severityNormalize sev = .ok sv)
    (hnd : skFields.any (fun q => q.1 = "distro") = false) :
    normalizeMatch (mkMatch id sev urls pname pver skFields [] fixv) =
      .error .stopIteration := by
  cases fixv <;> cases urls <;>
    simp [normalizeMatch, mkMatch, getKey, pyDictGet, asStr, asArr,
      pyContainsStr, hsev, hnd, List.find?, Bind.bind, Except.bind,
      Pure.pure, Except.pure]

theorem normalizeMatch_mk_badSeverity (id sev : String) (urls : List String)
    (pname pver : String) (skFields : List (String × Json))
    (locs : List Json) (fixv : Option String) (e : PyErr)
    (hsev : severityNormalize sev = .error e) :
    normalizeMatch (mkMatch id sev urls pname pver skFields locs fixv) =
      .error e := by
  cases fixv <;>
    simp [normalizeMatch, mkMatch, getKey, asStr, hsev,
      List.find?, Bind.bind, Except.bind, Pure.pure, Except.pure]

end Grype

/-! ## Claims -/

/-- C1 counterexample: the CLI adapter's `status()` is not total — when the
version subprocess exits 0 but its stdout is not parsable JSON, the
`json.loads` ValueError propagates out of `status()` instead of being turned
into an unavailable `ScannerStatus`. -/
theorem grype_status_raises_on_unparsable_output :
    Grype.status ⟨⟨0, .invalid, ""⟩, ⟨0, [], ""⟩⟩ = .error .valueError := rfl

/-- C1 (amended): the Engine adapter's `status()` never raises — every
failure of its try-body yields `available = false` with a non-empty message;
the CLI adapter's `status()` absorbs only non-zero subprocess exits (yielding
`available = false` with a non-empty message) and may raise on unparsable
output of a zero-exit subprocess. -/
theorem status_backend_failure_reporting :
    (∀ (b : Anchore.StatusBackend) (e : PyErr),
      Anchore.statusTry b = .error e →
      (Anchore.status b).available = false ∧ (Anchore.status b).message ≠ "")
  ∧ (∀ g : Grype.StatusBackend, g.versionProc.returncode ≠ 0 →
      Grype.status g =
        .ok ⟨"Grype", "Anchore", "unknown", false,
             "could not detect status", none⟩)
  ∧ (∀ (g : Grype.StatusBackend) (vj : Json) (v : String),
      g.versionProc.returncode = 0 →
      jsonLoads g.versionProc.stdout = .ok vj →
      getKey vj "version" = .ok (Json.str v) →
      g.dbProc.returncode ≠ 0 →
      Grype.status g =
        .ok ⟨"Grype", "Anchore", v, false,
             "could not detect database status", none⟩) := by
  refine ⟨?_, ?_, ?_⟩
  · intro b e h
    simp [Anchore.status, h]
  · intro g h
    simp [Grype.status, h, Pure.pure, Except.pure]
  · intro g vj v h0 hj hv hdb
    simp [Grype.status, h0, hj, hv, asStr, hdb, Bind.bind, Except.bind,
      Pure.pure, Except.pure]

/-- C1 witness: concrete failing backends for each reported mode. -/
theorem status_backend_failure_reporting_witness :
    ((Anchore.status ⟨.error .valueError, .error .valueError⟩).available = false
      ∧ (Anchore.status ⟨.error .valueError, .error .valueError⟩).message ≠ "")
  ∧ Grype.status ⟨⟨1, .invalid, "boom"⟩, ⟨0, [], ""⟩⟩ =
      .ok ⟨"Grype", "Anchore", "unknown", false,
           "could not detect status", none⟩
  ∧ Grype.status ⟨⟨0, .parsed (Json.obj [("version", Json.str "0.7.0")]), ""⟩,
        ⟨2, [], "db down"⟩⟩ =
      .ok ⟨"Grype", "Anchore", "0.7.0", false,
           "could not detect database status", none⟩ :=
  ⟨status_backend_failure_reporting.1 _ .valueError rfl,
   status_backend_failure_reporting.2.1 _ (by decide),
   status_backend_failure_reporting.2.2 _ _ _ rfl rfl rfl (by decide)⟩

/-- C2: in every state reachable from service startup, at most `cap` scan
subprocesses are alive; a waiting request can always take a slot the moment
fewer than `cap` scans run (it waits, it cannot fail); and a completed
subprocess releases its slot unconditionally, whatever its exit code. -/
theorem scan_semaphore_bounds_concurrency (cap k : Nat) (s : Grype.GateState)
    (h : Grype.GateReach cap k s) :
    Grype.runningCount s ≤ cap
  ∧ (∀ (i : Nat) (rc : Int), s.tasks.get? i = some .waiting →
      Grype.runningCount s < cap →
      Grype.GateStep s ⟨s.sem - 1, s.tasks.set i (.running rc)⟩)
  ∧ (∀ (i : Nat) (rc : Int), s.tasks.get? i = some (.running rc) →
      Grype.GateStep s ⟨s.sem + 1, s.tasks.set i (.done rc)⟩) := by
  have hinv := Grype.gateInvariant h
  refine ⟨by omega, ?_, ?_⟩
  · intro i rc hi hlt
    exact Grype.GateStep.acquire s i rc hi (by omega)
  · intro i rc hi
    exact Grype.GateStep.release s i rc hi

/-- C2 witness: with capacity 1 and two requests, after one acquire the
reachable state still has at most one running scan. -/
theorem scan_semaphore_bounds_concurrency_witness :
    Grype.runningCount
      ⟨0, [Grype.TaskPhase.running 0, Grype.TaskPhase.waiting]⟩ ≤ 1 := by
  have h0 : Grype.GateReach 1 2 (Grype.create_semaphore 1 2) :=
    Grype.GateReach.init
  have hstep : Grype.GateStep (Grype.create_semaphore 1 2)
      ⟨0, [Grype.TaskPhase.running 0, Grype.TaskPhase.waiting]⟩ :=
    Grype.GateStep.acquire (Grype.create_semaphore 1 2) 0 0 rfl (by decide)
  exact (scan_semaphore_bounds_concurrency 1 2 _
    (Grype.GateReach.step h0 hstep)).1

/-- C3 counterexample: the Engine adapter keys each property by the GROUP
name, not the feed name — a feed named `vulnerabilities` holding an enabled
group named `debian:10` yields the key `debian:10/last-sync`, which differs
from `vulnerabilities/last-sync`. -/
theorem anchore_properties_use_group_name_counterexample :
    (Anchore.status ⟨.ok (Anchore.mkSystemResponse "0.8.1" true "all up"),
        .ok (Anchore.mkFeedsResponse [Anchore.mkFeed ⟨true, "vulnerabilities",
          [⟨true, "debian:10", "2020-09-01T12:00:00Z"⟩]⟩])⟩).properties =
      some [("debian:10/last-sync", "2020-09-01T12:00:00Z")]
  ∧ ("debian:10/last-sync" : String) ≠ "vulnerabilities/last-sync" :=
  ⟨rfl, by decide⟩

/-- C3 (amended): when the analyzer is available, `properties` is exactly
the mapping keyed `"<group-name>/last-sync"` valued by that group's
last-sync stamp, over precisely the groups flagged enabled inside feeds
flagged enabled (a group of a disabled feed is dropped even if itself
enabled); when the analyzer is unavailable, `properties` is absent. -/
theorem anchore_status_properties_characterization :
    (∀ (v msg : String) (fs : List Anchore.FeedSpec),
      Anchore.status ⟨.ok (Anchore.mkSystemResponse v true msg),
          .ok (Anchore.mkFeedsResponse (fs.map Anchore.mkFeed))⟩ =
        ⟨"Anchore Engine", "Anchore", v, true, msg,
         some (dictOf (Anchore.specProperties fs))⟩)
  ∧ (∀ (v msg : String) (fbody : Json),
      Anchore.status ⟨.ok (Anchore.mkSystemResponse v false msg),
          .ok ⟨200, fbody⟩⟩ =
        ⟨"Anchore Engine", "Anchore", v, false, msg, none⟩) :=
  ⟨Anchore.status_mk_available, Anchore.status_mk_unavailable⟩

/-- C4: the poll loop starts on the submission response's analysis status
and performs exactly `n` polls when the n-th observed status is the first
equal to `analyzed`; in particular two `analyzing` observations followed by
`analyzed` mean exactly two polls before the vulnerability fetch. -/
theorem anchore_polls_until_analyzed (σ : Nat → String) (n : Nat)
    (hbefore : ∀ i, i < n → σ i ≠ "analyzed") (hn : σ n = "analyzed")
    (fuel : Nat) (hfuel : n < fuel) :
    Anchore.awaitAnalyzed (Anchore.mkResp (true, σ 0))
      (fun k => Anchore.mkResp (true, σ (k + 1))) fuel = some (.ok n) := by
  have hsub : raiseForStatus (Anchore.mkResp (true, σ 0)) = .ok () := by
    simp [Anchore.raiseForStatus_mkResp]
  simp only [Anchore.awaitAnalyzed, hsub]
  exact Anchore.pollLoop_counts σ fuel 0 n (Nat.zero_le n) (by omega)
    (fun i _ h2 => hbefore i h2) hn

/-- C4 witness: statuses analyzing, analyzing, analyzed yield exactly two
polls. -/
theorem anchore_polls_until_analyzed_witness :
    Anchore.awaitAnalyzed
      (Anchore.mkResp
        (true, (fun i => if i < 2 then "analyzing" else "analyzed") 0))
      (fun k => Anchore.mkResp
        (true, (fun i => if i < 2 then "analyzing" else "analyzed") (k + 1)))
      3 = some (.ok 2) :=
  anchore_polls_until_analyzed
    (fun i => if i < 2 then "analyzing" else "analyzed") 2
    (by decide) (by decide) 3 (by decide)

/-- C5: the poll loop has no timeout or retry bound — if every response is
2xx and none reports `analyzed`, the loop runs forever (no step bound makes
it return); and whenever it does terminate, some observed response was
`analyzed` or non-2xx. -/
theorem anchore_poll_loop_has_no_timeout (ρ : Nat → Bool × String) :
    ((∀ i, (ρ i).1 = true ∧ (ρ i).2 ≠ "analyzed") →
      ∀ fuel, Anchore.awaitAnalyzed (Anchore.mkResp (ρ 0))
        (fun k => Anchore.mkResp (ρ (k + 1))) fuel = none)
  ∧ (∀ (fuel : Nat) (r : Except PyErr Nat),
      Anchore.awaitAnalyzed (Anchore.mkResp (ρ 0))
        (fun k => Anchore.mkResp (ρ (k + 1))) fuel = some r →
      ∃ i, (ρ i).2 = "analyzed" ∨ (ρ i).1 = false) := by
  constructor
  · intro h fuel
    have hsub : raiseForStatus (Anchore.mkResp (ρ 0)) = .ok () := by
      simp [Anchore.raiseForStatus_mkResp, (h 0).1]
    simp only [Anchore.awaitAnalyzed, hsub]
    exact Anchore.pollLoop_none ρ h fuel 0
  · intro fuel r h
    by_cases h0 : (ρ 0).1 = true
    · have hsub : raiseForStatus (Anchore.mkResp (ρ 0)) = .ok () := by
        simp [Anchore.raiseForStatus_mkResp, h0]
      simp only [Anchore.awaitAnalyzed, hsub] at h
      exact Anchore.pollLoop_some ρ fuel 0 r h
    · exact ⟨0, Or.inr (by simpa using h0)⟩

/-- C5 witness: an all-2xx `analyzing` stream leaves the loop still running
after five steps. -/
theorem anchore_poll_loop_has_no_timeout_witness :
    Anchore.awaitAnalyzed
      (Anchore.mkResp ((fun (_ : Nat) => (true, "analyzing")) 0))
      (fun k => Anchore.mkResp ((fun (_ : Nat) => (true, "analyzing")) (k + 1)))
      5 = none :=
  (anchore_poll_loop_has_no_timeout (fun _ => (true, "analyzing"))).1
    (fun _ => ⟨rfl, by decide⟩) 5

/-- C6: a zero-exit scan whose JSON output has an empty or absent `matches`
list yields the empty result list, while a non-zero exit raises the named
Grype error carrying the captured stderr. -/
theorem grype_scan_empty_matches_or_nonzero_exit :
    (∀ (proc : Proc) (j : Json), proc.returncode = 0 →
      jsonLoads proc.stdout = .ok j →
      pyDictGet j "matches" (Json.arr []) = .ok (Json.arr []) →
      Grype.scan_image proc = .ok [])
  ∧ (∀ proc : Proc, proc.returncode ≠ 0 →
      Grype.scan_image proc = .error (.grypeError proc.stderr)) := by
  constructor
  · intro proc j h0 hj hm
    cases hpt : pyTruthy j <;>
      simp [Grype.scan_image, h0, hj, hm, hpt, asArr, List.mapM.loop,
        Bind.bind, Except.bind, Pure.pure, Except.pure]
  · intro proc h
    simp [Grype.scan_image, h]

/-- C6 witness: a zero-exit scan reporting no matches, and an exit-1 scan. -/
theorem grype_scan_empty_matches_or_nonzero_exit_witness :
    Grype.scan_image ⟨0, .parsed (Json.obj [("matches", Json.arr [])]), ""⟩ =
      .ok []
  ∧ Grype.scan_image ⟨1, .parsed Json.null, "scan failed"⟩ =
      .error (.grypeError "scan failed") :=
  ⟨grype_scan_empty_matches_or_nonzero_exit.1 _ _ rfl rfl rfl,
   grype_scan_empty_matches_or_nonzero_exit.2 _ (by decide)⟩

/-- C7: the Engine adapter classifies a finding OS exactly when its
`package_path` is the marker `pkgdb` (location then absent, otherwise the
path); the CLI adapter classifies OS exactly when the match's search key
carries a `distro` entry (location then absent, otherwise the first artifact
location's path). -/
theorem vulnerability_package_classification :
    (∀ (title sev url pname pver ppath fix : String) (sv : Severity)
        (iv : ImageVulnerability),
      severityNormalize sev = .ok sv →
      Anchore.normalizeVuln
          (Anchore.mkEngineVuln title sev url pname pver ppath fix) = .ok iv →
      ((iv.package_type = .OS ↔ ppath = "pkgdb")
        ∧ (ppath = "pkgdb" → iv.package_location = none)
        ∧ (ppath ≠ "pkgdb" → iv.package_location = some ppath)))
  ∧ (∀ (id sev : String) (urls : List String) (pname pver : String)
        (skFields : List (String × Json)) (p : String) (locs : List Json)
        (fixv : Option String) (sv : Severity) (iv : ImageVulnerability),
      severityNormalize sev = .ok sv →
      Grype.normalizeMatch (Grype.mkMatch id sev urls pname pver skFields
          (Grype.mkLocation p :: locs) fixv) = .ok iv →
      ((iv.package_type = .OS ↔
          skFields.any (fun q => q.1 = "distro") = true)
        ∧ (skFields.any (fun q => q.1 = "distro") = true →
            iv.package_location = none)
        ∧ (skFields.any (fun q => q.1 = "distro") = false →
            iv.package_location = some p))) := by
  constructor
  · intro title sev url pname pver ppath fix sv iv hsev hok
    rw [Anchore.normalizeVuln_mk title sev url pname pver ppath fix sv hsev]
      at hok
    have hiv := (Except.ok.inj hok).symm
    subst hiv
    by_cases hp : ppath = "pkgdb" <;> simp [hp]
  · intro id sev urls pname pver skFields p locs fixv sv iv hsev hok
    rw [Grype.normalizeMatch_mk id sev urls pname pver skFields p locs fixv
      sv hsev] at hok
    have hiv := (Except.ok.inj hok).symm
    subst hiv
    by_cases hd : skFields.any (fun q => q.1 = "distro") <;> simp [hd]

/-- C7 witness: an OS-classified engine finding and an OS-classified CLI
finding. -/
theorem vulnerability_package_classification_witness :
    (((⟨"CVE-1", .HIGH, some "u", "pkg", "1", .OS, none, none⟩ :
        ImageVulnerability).package_type = .OS ↔ ("pkgdb" : String) = "pkgdb")
      ∧ (("pkgdb" : String) = "pkgdb" →
          (⟨"CVE-1", .HIGH, some "u", "pkg", "1", .OS, none, none⟩ :
            ImageVulnerability).package_location = none)
      ∧ (("pkgdb" : String) ≠ "pkgdb" →
          (⟨"CVE-1", .HIGH, some "u", "pkg", "1", .OS, none, none⟩ :
            ImageVulnerability).package_location = some "pkgdb"))
  ∧ (((⟨"CVE-3", .LOW, some "http://x", "pkg", "2", .OS, none, none⟩ :
        ImageVulnerability).package_type = .OS ↔
        ([("distro", Json.null)].any (fun q => q.1 = "distro") = true))
      ∧ ([("distro", Json.null)].any (fun q => q.1 = "distro") = true →
          (⟨"CVE-3", .LOW, some "http://x", "pkg", "2", .OS, none, none⟩ :
            ImageVulnerability).package_location = none)
      ∧ ([("distro", Json.null)].any (fun q => q.1 = "distro") = false →
          (⟨"CVE-3", .LOW, some "http://x", "pkg", "2", .OS, none, none⟩ :
            ImageVulnerability).package_location = some "/p")) :=
  ⟨vulnerability_package_classification.1 "CVE-1" "HIGH" "u" "pkg" "1"
      "pkgdb" "None" .HIGH
      ⟨"CVE-1", .HIGH, some "u", "pkg", "1", .OS, none, none⟩ rfl rfl,
   vulnerability_package_classification.2 "CVE-3" "low" ["http://x"] "pkg"
      "2" [("distro", Json.null)] "/p" [] none .LOW
      ⟨"CVE-3", .LOW, some "http://x", "pkg", "2", .OS, none, none⟩ rfl rfl⟩

/-- C8: the Engine adapter drops `fix_version` exactly when the backend's
fix field equals the string sentinel `None`; the CLI adapter passes the
`fixedInVersion` field through structurally — absent field means absent
value, and no string is treated as a sentinel. -/
theorem fix_version_absence_mechanisms :
    (∀ (title sev url pname pver ppath fix : String) (sv : Severity)
        (iv : ImageVulnerability),
      severityNormalize sev = .ok sv →
      Anchore.normalizeVuln
          (Anchore.mkEngineVuln title sev url pname pver ppath fix) = .ok iv →
      iv.fix_version = (if fix = "None" then none else some fix))
  ∧ (∀ (id sev : String) (urls : List String) (pname pver : String)
        (skFields : List (String × Json)) (p : String) (locs : List Json)
        (fixv : Option String) (sv : Severity) (iv : ImageVulnerability),
      severityNormalize sev = .ok sv →
      Grype.normalizeMatch (Grype.mkMatch id sev urls pname pver skFields
          (Grype.mkLocation p :: locs) fixv) = .ok iv →
      iv.fix_version = fixv) := by
  constructor
  · intro title sev url pname pver ppath fix sv iv hsev hok
    rw [Anchore.normalizeVuln_mk title sev url pname pver ppath fix sv hsev]
      at hok
    have hiv := (Except.ok.inj hok).symm
    subst hiv
    rfl
  · intro id sev urls pname pver skFields p locs fixv sv iv hsev hok
    rw [Grype.normalizeMatch_mk id sev urls pname pver skFields p locs fixv
      sv hsev] at hok
    have hiv := (Except.ok.inj hok).symm
    subst hiv
    rfl

/-- C8 witness: the engine sentinel `None` maps to absent, while the CLI
passes even the literal string `None` through untouched. -/
theorem fix_version_absence_mechanisms_witness :
    (⟨"CVE-1", .HIGH, some "u", "pkg", "1", .OS, none, none⟩ :
        ImageVulnerability).fix_version =
      (if ("None" : String) = "None" then none else some "None")
  ∧ (⟨"CVE-3", .LOW, none, "pkg", "2", .NON_OS, some "/p", some "None"⟩ :
        ImageVulnerability).fix_version = some "None" :=
  ⟨fix_version_absence_mechanisms.1 "CVE-1" "HIGH" "u" "pkg" "1" "pkgdb"
      "None" .HIGH
      ⟨"CVE-1", .HIGH, some "u", "pkg", "1", .OS, none, none⟩ rfl rfl,
   fix_version_absence_mechanisms.2 "CVE-3" "low" [] "pkg" "2" [] "/p" []
      (some "None") .LOW
      ⟨"CVE-3", .LOW, none, "pkg", "2", .NON_OS, some "/p", some "None"⟩
      rfl rfl⟩

/-- C9: severity normalization in both adapters is lookup of the uppercased
backend string among the enumeration's names — it accepts every casing of a
member name, and any string that uppercases to a non-member is a hard
KeyError in either adapter's normalization, never a default severity. -/
theorem severity_normalization_is_strict_uppercase_lookup :
    (∀ (raw : String) (sv : Severity), pyUpper raw = severityName sv →
      severityNormalize raw = .ok sv)
  ∧ (∀ raw : String, (∀ sv : Severity, pyUpper raw ≠ severityName sv) →
      severityNormalize raw = .error (.keyError (pyUpper raw)))
  ∧ (∀ raw : String, (∀ sv : Severity, pyUpper raw ≠ severityName sv) →
      ∀ title url pname pver ppath fix : String,
        Anchore.normalizeVuln
            (Anchore.mkEngineVuln title raw url pname pver ppath fix) =
          .error (.keyError (pyUpper raw)))
  ∧ (∀ raw : String, (∀ sv : Severity, pyUpper raw ≠ severityName sv) →
      ∀ (id : String) (urls : List String) (pname pver : String)
        (skFields : List (String × Json)) (locs : List Json)
        (fixv : Option String),
        Grype.normalizeMatch
            (Grype.mkMatch id raw urls pname pver skFields locs fixv) =
          .error (.keyError (pyUpper raw))) := by
  refine ⟨?_, severityNormalize_miss, ?_, ?_⟩
  · intro raw sv h
    cases sv <;> simp [severityName] at h <;>
      simp [severityNormalize, severityLookup, h]
  · intro raw h title url pname pver ppath fix
    exact Anchore.normalizeVuln_mk_badSeverity title raw url pname pver ppath
      fix _ (severityNormalize_miss raw h)
  · intro raw h id urls pname pver skFields locs fixv
    exact Grype.normalizeMatch_mk_badSeverity id raw urls pname pver skFields
      locs fixv _ (severityNormalize_miss raw h)

/-- C9 witness: a mixed-case member name is accepted, an unknown severity is
a KeyError. -/
theorem severity_normalization_is_strict_uppercase_lookup_witness :
    severityNormalize "CrItIcAl" = .ok .CRITICAL
  ∧ severityNormalize "bogus" = .error (.keyError (pyUpper "bogus")) :=
  ⟨severity_normalization_is_strict_uppercase_lookup.1 "CrItIcAl" .CRITICAL
      rfl,
   severity_normalization_is_strict_uppercase_lookup.2.1 "bogus"
      (fun sv => by cases sv <;> decide)⟩

/-- C10: a match not classified OS whose artifact locations list is empty
makes normalization — and with it the whole scan — raise StopIteration from
the unguarded first-element extraction, while the guarded `info_url`
extraction of an empty links list merely yields an absent URL on an
otherwise identical match with a location. -/
theorem grype_nonos_empty_locations_fails_scan (id sev : String)
    (urls : List String) (pname pver : String)
    (skFields : List (String × Json)) (fixv : Option String) (sv : Severity)
    (hsev : severityNormalize sev = .ok sv)
    (hnd : skFields.any (fun q => q.1 = "distro") = false) :
    Grype.normalizeMatch
        (Grype.mkMatch id sev urls pname pver skFields [] fixv) =
      .error .stopIteration
  ∧ (∀ proc : Proc, proc.returncode = 0 →
      proc.stdout = .parsed (Json.obj [("matches",
        Json.arr [Grype.mkMatch id sev urls pname pver skFields [] fixv])]) →
      Grype.scan_image proc = .error .stopIteration)
  ∧ (∀ (p : String) (locs : List Json),
      Grype.normalizeMatch (Grype.mkMatch id sev [] pname pver skFields
          (Grype.mkLocation p :: locs) fixv) =
        .ok ⟨id, sv, none, pname, pver, .NON_OS, some p, fixv⟩) := by
  have hfail := Grype.normalizeMatch_mk_noLocations id sev urls pname pver
    skFields fixv sv hsev hnd
  refine ⟨hfail, ?_, ?_⟩
  · intro proc h0 hstd
    simp [Grype.scan_image, h0, hstd, jsonLoads, pyTruthy, pyDictGet, asArr,
      hfail, List.mapM_cons, List.mapM.loop, List.find?, Bind.bind,
      Except.bind, Pure.pure, Except.pure]
  · intro p locs
    have hm := Grype.normalizeMatch_mk id sev [] pname pver skFields p locs
      fixv sv hsev
    simpa [hnd] using hm

/-- C10 witness: a concrete non-OS match with no locations fails
normalization with StopIteration. -/
theorem grype_nonos_empty_locations_fails_scan_witness :
    Grype.normalizeMatch (Grype.mkMatch "CVE-2" "LOW" [] "pkg" "1" [] [] none) =
      .error .stopIteration :=
  (grype_nonos_empty_locations_fails_scan "CVE-2" "LOW" [] "pkg" "1" [] none
    .LOW rfl rfl).1
